import Mathlib

/-!
Verification of the ChainSafe chainbridge Substrate pallet
(`chainbridge/src/lib.rs`, `chainbridge/src/types.rs`).

The pallet is shallowly embedded: storage maps become association lists,
machine integers become `Nat` (no arithmetic in the pallet can overflow on
the traces considered; the single subtraction, the relayer-count decrement,
is guarded by an explicit positivity hypothesis where it matters), the
runtime's `DispatchResult` becomes `Option DispatchError` (with `none` for
`Ok(())`), and the dispatch of a carried proposal call is a parameter of
the configuration.
-/

/-- `ProposalStatus` from `types.rs`. -/
inductive ProposalStatus
  | initiated
  | approved
  | rejected
deriving DecidableEq, Repr

/-- `ProposalVotes` from `types.rs`.  Account ids are `Nat`, block numbers
are `Nat`. -/
structure ProposalVotes where
  votes_for : List Nat
  votes_against : List Nat
  status : ProposalStatus
  expiry : Nat
deriving DecidableEq, Repr

/-- `Default for ProposalVotes` from `types.rs`. -/
def ProposalVotes.default : ProposalVotes :=
  { votes_for := [], votes_against := [], status := .initiated, expiry := 0 }

/-- `ProposalVotes::try_to_complete` from `types.rs`: Rust mutates `self`
and returns the status, so the embedding returns the updated record
together with the returned status. -/
def ProposalVotes.try_to_complete (v : ProposalVotes) (threshold total : Nat) :
    ProposalVotes × ProposalStatus :=
  if v.votes_for.length ≥ threshold then
    ({ v with status := .approved }, .approved)
  else if total ≥ threshold ∧ v.votes_against.length + threshold > total then
    ({ v with status := .rejected }, .rejected)
  else
    (v, .initiated)

/-- `ProposalVotes::is_complete` from `types.rs`. -/
def ProposalVotes.is_complete (v : ProposalVotes) : Bool :=
  v.status ≠ .initiated

/-- `ProposalVotes::has_voted` from `types.rs`. -/
def ProposalVotes.has_voted (v : ProposalVotes) (who : Nat) : Bool :=
  v.votes_for.contains who || v.votes_against.contains who

/-- `ProposalVotes::is_expired` from `types.rs`: `self.expiry <= now`. -/
def ProposalVotes.is_expired (v : ProposalVotes) (now : Nat) : Bool :=
  v.expiry ≤ now

/-- `ResourceId`: a `[u8; 32]` in the source, embedded as a byte list. -/
abbrev ResourceId := List Nat

/-- `Error<T>` from `lib.rs`. -/
inductive BridgeError
  | thresholdNotSet
  | invalidChainId
  | invalidThreshold
  | chainNotWhitelisted
  | chainAlreadyWhitelisted
  | resourceDoesNotExist
  | relayerAlreadyExists
  | relayerInvalid
  | mustBeRelayer
  | relayerAlreadyVoted
  | proposalAlreadyExists
  | proposalDoesNotExist
  | proposalNotComplete
  | proposalAlreadyComplete
  | proposalExpired
deriving DecidableEq, Repr

/-- Runtime-level dispatch errors: either an error of this pallet, the
bad-origin error of `ensure_signed`, or an arbitrary error returned by a
dispatched proposal call. -/
inductive DispatchError
  | module (e : BridgeError)
  | badOrigin
  | other (code : Nat)
deriving DecidableEq, Repr

/-- Runtime origins relevant to the pallet. -/
inductive Origin
  | root
  | signed (who : Nat)
  | nobody
deriving DecidableEq, Repr

/-- `ensure_signed`: returns the signing account, failing on other origins. -/
def ensure_signed : Origin → Option Nat
  | .signed who => some who
  | _ => none

/-- `Event<T>` from `lib.rs`.  `U256` amounts are embedded as `Nat` (they
are carried through untouched by the pallet). -/
inductive Event
  | relayerThresholdChanged (threshold : Nat)
  | chainWhitelisted (chainId : Nat)
  | relayerAdded (who : Nat)
  | relayerRemoved (who : Nat)
  | fungibleTransfer (dest : Nat) (nonce : Nat) (rid : ResourceId) (amount : Nat) (recipient : List Nat)
  | nonFungibleTransfer (dest : Nat) (nonce : Nat) (rid : ResourceId)
      (tokenId : List Nat) (recipient : List Nat) (metadata : List Nat)
  | genericTransfer (dest : Nat) (nonce : Nat) (rid : ResourceId) (metadata : List Nat)
  | voteFor (srcId : Nat) (nonce : Nat) (who : Nat)
  | voteAgainst (srcId : Nat) (nonce : Nat) (who : Nat)
  | proposalApproved (srcId : Nat) (nonce : Nat)
  | proposalRejected (srcId : Nat) (nonce : Nat)
  | proposalSucceeded (srcId : Nat) (nonce : Nat)
  | proposalFailed (srcId : Nat) (nonce : Nat)
deriving DecidableEq, Repr

/-- `DEFAULT_RELAYER_THRESHOLD` from `lib.rs`. -/
def DEFAULT_RELAYER_THRESHOLD : Nat := 1

/-! Association lists model the pallet's storage maps. -/

/-- Storage-map lookup. -/
def lookupA {α β : Type} [DecidableEq α] : List (α × β) → α → Option β
  | [], _ => none
  | (k, v) :: rest, a => if k = a then some v else lookupA rest a

/-- Storage-map insert (overwrites any existing entry for the key). -/
def insertA {α β : Type} [DecidableEq α] (l : List (α × β)) (a : α) (b : β) :
    List (α × β) :=
  (a, b) :: l.filter (fun p => p.1 ≠ a)

/-- Storage-map removal. -/
def removeA {α β : Type} [DecidableEq α] (l : List (α × β)) (a : α) :
    List (α × β) :=
  l.filter (fun p => p.1 ≠ a)

/-- Static pallet configuration (`Config` trait): the local chain id, the
proposal lifetime, the bridge account (`account_id()`), and the semantics
of dispatching a carried `Proposal` call at a given origin (`none` models
`Ok`, `some e` a dispatch error). -/
structure BridgeConfig (P : Type) where
  chainId : Nat
  proposalLifetime : Nat
  palletAccount : Nat
  dispatchCall : P → Origin → Option DispatchError

/-- The pallet's storage items, plus the event deposit list and the current
block number of the surrounding runtime. -/
structure BridgeState (P : Type) where
  chainNonces : List (Nat × Nat)
  relayerThreshold : Option Nat
  relayers : List (Nat × Bool)
  relayerCount : Nat
  votes : List ((Nat × Nat × P) × ProposalVotes)
  resources : List (ResourceId × List Nat)
  events : List Event
  blockNumber : Nat
deriving DecidableEq

variable {P : Type}

/-- `deposit_event`. -/
def deposit_event (s : BridgeState P) (e : Event) : BridgeState P :=
  { s with events := s.events ++ [e] }

/-- `is_relayer`: reads the `Relayers` map, whose `ValueQuery` default is
`false`. -/
def is_relayer (s : BridgeState P) (who : Nat) : Bool :=
  (lookupA s.relayers who).getD false

/-- `resource_exists`. -/
def resource_exists (s : BridgeState P) (id : ResourceId) : Bool :=
  lookupA s.resources id ≠ none

/-- `chain_whitelisted`. -/
def chain_whitelisted (s : BridgeState P) (id : Nat) : Bool :=
  lookupA s.chainNonces id ≠ none

/-- `get_relayer_threshold`: reads `RelayerThreshold`, whose default is
`DEFAULT_RELAYER_THRESHOLD`. -/
def get_relayer_threshold (s : BridgeState P) : Nat :=
  s.relayerThreshold.getD DEFAULT_RELAYER_THRESHOLD

/-- `bump_nonce`. -/
def bump_nonce (s : BridgeState P) (id : Nat) : BridgeState P × Nat :=
  let nonce := (lookupA s.chainNonces id).getD 0 + 1
  ({ s with chainNonces := insertA s.chainNonces id nonce }, nonce)

/-- `set_relayer_threshold`. -/
def set_relayer_threshold (s : BridgeState P) (threshold : Nat) :
    BridgeState P × Option DispatchError :=
  if threshold > 0 then
    (deposit_event { s with relayerThreshold := some threshold }
      (.relayerThresholdChanged threshold), none)
  else
    (s, some (.module .invalidThreshold))

/-- `register_resource`. -/
def register_resource (s : BridgeState P) (id : ResourceId) (method : List Nat) :
    BridgeState P × Option DispatchError :=
  ({ s with resources := insertA s.resources id method }, none)

/-- `unregister_resource`. -/
def unregister_resource (s : BridgeState P) (id : ResourceId) :
    BridgeState P × Option DispatchError :=
  ({ s with resources := removeA s.resources id }, none)

/-- `whitelist` from `lib.rs` (the body of the `whitelist_chain`
extrinsic after its admin check). -/
def whitelist (cfg : BridgeConfig P) (s : BridgeState P) (id : Nat) :
    BridgeState P × Option DispatchError :=
  if id = cfg.chainId then (s, some (.module .invalidChainId))
  else if chain_whitelisted s id then (s, some (.module .chainAlreadyWhitelisted))
  else
    (deposit_event { s with chainNonces := insertA s.chainNonces id 0 }
      (.chainWhitelisted id), none)

/-- `register_relayer`. -/
def register_relayer (s : BridgeState P) (relayer : Nat) :
    BridgeState P × Option DispatchError :=
  if is_relayer s relayer then (s, some (.module .relayerAlreadyExists))
  else
    (deposit_event
      { s with relayers := insertA s.relayers relayer true,
               relayerCount := s.relayerCount + 1 }
      (.relayerAdded relayer), none)

/-- `unregister_relayer`. -/
def unregister_relayer (s : BridgeState P) (relayer : Nat) :
    BridgeState P × Option DispatchError :=
  if is_relayer s relayer then
    (deposit_event
      { s with relayers := removeA s.relayers relayer,
               relayerCount := s.relayerCount - 1 }
      (.relayerRemoved relayer), none)
  else (s, some (.module .relayerInvalid))

/-- `commit_vote`. -/
def commit_vote [DecidableEq P] (cfg : BridgeConfig P) (s : BridgeState P) (who nonce srcId : Nat)
    (prop : P) (inFavour : Bool) : BridgeState P × Option DispatchError :=
  let now := s.blockNumber
  let votes := match lookupA s.votes (srcId, nonce, prop) with
    | some v => v
    | none => { ProposalVotes.default with expiry := now + cfg.proposalLifetime }
  if votes.is_complete then (s, some (.module .proposalAlreadyComplete))
  else if votes.is_expired now then (s, some (.module .proposalExpired))
  else if votes.has_voted who then (s, some (.module .relayerAlreadyVoted))
  else
    let (votes', ev) :=
      if inFavour then
        ({ votes with votes_for := votes.votes_for ++ [who] },
          Event.voteFor srcId nonce who)
      else
        ({ votes with votes_against := votes.votes_against ++ [who] },
          Event.voteAgainst srcId nonce who)
    let s1 := deposit_event s ev
    ({ s1 with votes := insertA s1.votes (srcId, nonce, prop) votes' }, none)

/-- `finalize_execution`: emits `ProposalApproved`, dispatches the call
under the bridge account's signed origin, and on success emits
`ProposalSucceeded`; a dispatch error is propagated by `?`. -/
def finalize_execution (cfg : BridgeConfig P) (s : BridgeState P)
    (srcId nonce : Nat) (call : P) : BridgeState P × Option DispatchError :=
  let s1 := deposit_event s (.proposalApproved srcId nonce)
  match cfg.dispatchCall call (.signed cfg.palletAccount) with
  | some e => (s1, some e)
  | none => (deposit_event s1 (.proposalSucceeded srcId nonce), none)

/-- `cancel_execution`. -/
def cancel_execution (s : BridgeState P) (srcId nonce : Nat) :
    BridgeState P × Option DispatchError :=
  (deposit_event s (.proposalRejected srcId nonce), none)

/-- `try_resolve_proposal`. -/
def try_resolve_proposal [DecidableEq P] (cfg : BridgeConfig P) (s : BridgeState P)
    (nonce srcId : Nat) (prop : P) : BridgeState P × Option DispatchError :=
  match lookupA s.votes (srcId, nonce, prop) with
  | some votes =>
    let now := s.blockNumber
    if votes.is_complete then (s, some (.module .proposalAlreadyComplete))
    else if votes.is_expired now then (s, some (.module .proposalExpired))
    else
      let (votes', status) :=
        votes.try_to_complete (get_relayer_threshold s) s.relayerCount
      let s1 := { s with votes := insertA s.votes (srcId, nonce, prop) votes' }
      match status with
      | .approved => finalize_execution cfg s1 srcId nonce prop
      | .rejected => cancel_execution s1 srcId nonce
      | .initiated => (s1, none)
  | none => (s, some (.module .proposalDoesNotExist))

/-- `vote_for`: `commit_vote(..)?` then `try_resolve_proposal`. -/
def vote_for [DecidableEq P] (cfg : BridgeConfig P) (s : BridgeState P) (who nonce srcId : Nat)
    (prop : P) : BridgeState P × Option DispatchError :=
  match commit_vote cfg s who nonce srcId prop true with
  | (s1, none) => try_resolve_proposal cfg s1 nonce srcId prop
  | (s1, some e) => (s1, some e)

/-- `vote_against`: `commit_vote(..)?` then `try_resolve_proposal`. -/
def vote_against [DecidableEq P] (cfg : BridgeConfig P) (s : BridgeState P) (who nonce srcId : Nat)
    (prop : P) : BridgeState P × Option DispatchError :=
  match commit_vote cfg s who nonce srcId prop false with
  | (s1, none) => try_resolve_proposal cfg s1 nonce srcId prop
  | (s1, some e) => (s1, some e)

/-- `acknowledge_proposal` extrinsic. -/
def acknowledge_proposal [DecidableEq P] (cfg : BridgeConfig P) (s : BridgeState P)
    (origin : Origin) (nonce srcId : Nat) (rId : ResourceId) (call : P) :
    BridgeState P × Option DispatchError :=
  match ensure_signed origin with
  | none => (s, some .badOrigin)
  | some who =>
    if ¬ is_relayer s who then (s, some (.module .mustBeRelayer))
    else if ¬ chain_whitelisted s srcId then (s, some (.module .chainNotWhitelisted))
    else if ¬ resource_exists s rId then (s, some (.module .resourceDoesNotExist))
    else vote_for cfg s who nonce srcId call

/-- `reject_proposal` extrinsic. -/
def reject_proposal [DecidableEq P] (cfg : BridgeConfig P) (s : BridgeState P)
    (origin : Origin) (nonce srcId : Nat) (rId : ResourceId) (call : P) :
    BridgeState P × Option DispatchError :=
  match ensure_signed origin with
  | none => (s, some .badOrigin)
  | some who =>
    if ¬ is_relayer s who then (s, some (.module .mustBeRelayer))
    else if ¬ chain_whitelisted s srcId then (s, some (.module .chainNotWhitelisted))
    else if ¬ resource_exists s rId then (s, some (.module .resourceDoesNotExist))
    else vote_against cfg s who nonce srcId call

/-- `eval_vote_state` extrinsic. -/
def eval_vote_state [DecidableEq P] (cfg : BridgeConfig P) (s : BridgeState P)
    (origin : Origin) (nonce srcId : Nat) (prop : P) :
    BridgeState P × Option DispatchError :=
  match ensure_signed origin with
  | none => (s, some .badOrigin)
  | some _ => try_resolve_proposal cfg s nonce srcId prop

/-- `transfer_fungible`. -/
def transfer_fungible (s : BridgeState P) (destId : Nat) (resourceId : ResourceId)
    (recipient : List Nat) (amount : Nat) : BridgeState P × Option DispatchError :=
  if ¬ chain_whitelisted s destId then (s, some (.module .chainNotWhitelisted))
  else
    let (s1, nonce) := bump_nonce s destId
    (deposit_event s1 (.fungibleTransfer destId nonce resourceId amount recipient), none)

/-- `transfer_nonfungible`. -/
def transfer_nonfungible (s : BridgeState P) (destId : Nat)
    (resourceId : ResourceId) (tokenId recipient metadata : List Nat) :
    BridgeState P × Option DispatchError :=
  if ¬ chain_whitelisted s destId then (s, some (.module .chainNotWhitelisted))
  else
    let (s1, nonce) := bump_nonce s destId
    (deposit_event s1
      (.nonFungibleTransfer destId nonce resourceId tokenId recipient metadata), none)

/-- `transfer_generic`. -/
def transfer_generic (s : BridgeState P) (destId : Nat)
    (resourceId : ResourceId) (metadata : List Nat) :
    BridgeState P × Option DispatchError :=
  if ¬ chain_whitelisted s destId then (s, some (.module .chainNotWhitelisted))
  else
    let (s1, nonce) := bump_nonce s destId
    (deposit_event s1 (.genericTransfer destId nonce resourceId metadata), none)

/-- `derive_resource_id` from `lib.rs`: starts from 32 zero bytes, sets
byte 31 to the chain id, then runs the source's `for i in 0..range` loop
copying `id[range - 1 - i]` to byte `30 - i`. -/
def derive_resource_id (chain : Nat) (id : List Nat) : List Nat :=
  let r0 := (List.replicate 32 0).set 31 chain
  let range := if id.length > 31 then 31 else id.length
  (List.range range).foldl (fun r i => r.set (30 - i) (id.getD (range - 1 - i) 0)) r0

/-- One outbound transfer request to a fixed destination: the arguments of
transfer_fungible, transfer_nonfungible or transfer_generic other than the
destination chain. -/
inductive XferOp
  | fungible (rid : ResourceId) (recipient : List Nat) (amount : Nat)
  | nonfungible (rid : ResourceId) (tokenId recipient metadata : List Nat)
  | generic (rid : ResourceId) (metadata : List Nat)
deriving DecidableEq, Repr

/-- Runs one outbound transfer entry point against destination c. -/
def applyXfer (s : BridgeState P) (c : Nat) : XferOp → BridgeState P
  | .fungible rid recipient amount => (transfer_fungible s c rid recipient amount).1
  | .nonfungible rid tokenId recipient metadata =>
      (transfer_nonfungible s c rid tokenId recipient metadata).1
  | .generic rid metadata => (transfer_generic s c rid metadata).1

/-- Runs a sequence of outbound transfers, each with its own destination. -/
def applyXfers (s : BridgeState P) (ops : List (Nat × XferOp)) : BridgeState P :=
  ops.foldl (fun st p => applyXfer st p.1 p.2) s

/-- The deposit nonce carried by a transfer event addressed to chain c. -/
def xferNonce (c : Nat) : Event → Option Nat
  | .fungibleTransfer d n _ _ _ => if d = c then some n else none
  | .nonFungibleTransfer d n _ _ _ _ => if d = c then some n else none
  | .genericTransfer d n _ _ => if d = c then some n else none
  | _ => none

/-- The sequence of deposit nonces carried by the transfer events addressed
to chain c, in emission order. -/
def xferNonces (c : Nat) (evs : List Event) : List Nat :=
  evs.filterMap (xferNonce c)

/-! Concrete fixtures used by the witness theorems. -/

/-- A sample registered resource id. -/
def sampleRid : ResourceId := [1, 2, 3]

/-- Configuration whose proposal dispatch always succeeds. -/
def cfgOk : BridgeConfig Nat :=
  { chainId := 5, proposalLifetime := 10, palletAccount := 99,
    dispatchCall := fun _ _ => none }

/-- Configuration whose proposal dispatch always fails with error code 7. -/
def cfgFail : BridgeConfig Nat :=
  { chainId := 5, proposalLifetime := 10, palletAccount := 99,
    dispatchCall := fun _ _ => some (.other 7) }

/-- One relayer (account 2), threshold 1, chain 1 whitelisted, sampleRid
registered, no proposals, at block 1. -/
def st1 : BridgeState Nat :=
  { chainNonces := [(1, 0)], relayerThreshold := some 1,
    relayers := [(2, true)], relayerCount := 1, votes := [],
    resources := [(sampleRid, [109])], events := [], blockNumber := 1 }

/-- Three relayers (2, 3, 4), threshold 2, chain 1 whitelisted, sampleRid
registered, no proposals, at block 1. -/
def st2 : BridgeState Nat :=
  { chainNonces := [(1, 0)], relayerThreshold := some 2,
    relayers := [(2, true), (3, true), (4, true)], relayerCount := 3,
    votes := [], resources := [(sampleRid, [109])], events := [],
    blockNumber := 1 }

/-- Like st2 but proposal (src 1, nonce 1, call 0) is already Approved. -/
def stTerm : BridgeState Nat :=
  { st2 with votes := [((1, 1, 0),
      { votes_for := [2, 3], votes_against := [], status := .approved,
        expiry := 11 })] }

/-- Like st2 but at block 11 with proposal (1, 1, 0) still Initiated and
expiring at block 11 (it was created at block 1 with lifetime 10). -/
def stExp : BridgeState Nat :=
  { st2 with blockNumber := 11,
             votes := [((1, 1, 0),
               { votes_for := [2], votes_against := [], status := .initiated,
                 expiry := 11 })] }

/-- Like st2 but relayer 2 has already voted for proposal (1, 1, 0), which
is still Initiated and unexpired. -/
def stVoted : BridgeState Nat :=
  { st2 with votes := [((1, 1, 0),
      { votes_for := [2], votes_against := [], status := .initiated,
        expiry := 11 })] }

/-- Like st1 but the relayer threshold was never set. -/
def stDef : BridgeState Nat :=
  { st1 with relayerThreshold := none }

/-- Two relayers 7 and 8, threshold 2, both already voted for proposal
(1, 1, 0), which is still Initiated and unexpired. -/
def stC10 : BridgeState Nat :=
  { chainNonces := [(1, 0)], relayerThreshold := some 2,
    relayers := [(7, true), (8, true)], relayerCount := 2,
    votes := [((1, 1, 0),
      { votes_for := [7, 8], votes_against := [], status := .initiated,
        expiry := 11 })],
    resources := [(sampleRid, [109])], events := [], blockNumber := 1 }

/-! Helper lemmas about the association-list storage maps. -/

theorem lookupA_insertA_self {α β : Type} [DecidableEq α] (l : List (α × β)) (a : α) (b : β) :
    lookupA (insertA l a b) a = some b := by
  simp [insertA, lookupA]

theorem lookupA_filter_ne {α β : Type} [DecidableEq α] (l : List (α × β)) (a : α) :
    lookupA (l.filter (fun p => p.1 ≠ a)) a = none := by
  induction l with
  | nil => simp [lookupA]
  | cons hd tl ih =>
    rw [List.filter_cons]
    by_cases h : hd.1 = a
    · simpa [h] using ih
    · simpa [h, lookupA] using ih

theorem lookupA_removeA_self {α β : Type} [DecidableEq α] (l : List (α × β)) (a : α) :
    lookupA (removeA l a) a = none :=
  lookupA_filter_ne l a

/-- Claim C1: the resolution function returns Approved and marks the record
Approved exactly when the favor tally meets the threshold; otherwise it
returns Rejected and marks the record Rejected exactly when the relayer
count is at least the threshold and a favorable quorum is unreachable;
otherwise it returns Initiated leaving the record unchanged, and approval
is decided before rejection, so a record meeting both predicates resolves
Approved. -/
theorem try_to_complete_characterization (v : ProposalVotes) (K N : Nat) :
    ((v.try_to_complete K N).2 = .approved ↔ K ≤ v.votes_for.length) ∧
    ((v.try_to_complete K N).2 = .approved →
      (v.try_to_complete K N).1 = { v with status := .approved }) ∧
    ((v.try_to_complete K N).2 = .rejected ↔
      (v.votes_for.length < K ∧ K ≤ N ∧ N < v.votes_against.length + K)) ∧
    ((v.try_to_complete K N).2 = .rejected →
      (v.try_to_complete K N).1 = { v with status := .rejected }) ∧
    ((v.try_to_complete K N).2 = .initiated → (v.try_to_complete K N).1 = v) ∧
    (K ≤ v.votes_for.length → K ≤ N → N < v.votes_against.length + K →
      (v.try_to_complete K N).2 = .approved) := by
  unfold ProposalVotes.try_to_complete
  split_ifs with h1 h2 <;>
    refine ⟨?_, ?_, ?_, ?_, ?_, ?_⟩ <;> simp_all

/-- Witness for C1 at a concrete record: two favor votes meet threshold 2
among 3 relayers, so the record resolves Approved. -/
theorem try_to_complete_characterization_witness :
    ((ProposalVotes.mk [1, 2] [] .initiated 5).try_to_complete 2 3).1 =
      { votes_for := [1, 2], votes_against := [], status := .approved, expiry := 5 } ∧
    ((ProposalVotes.mk [] [2, 3] .initiated 5).try_to_complete 2 3).2 = .rejected :=
  ⟨(try_to_complete_characterization ⟨[1, 2], [], .initiated, 5⟩ 2 3).2.1 (by decide),
   ((try_to_complete_characterization ⟨[], [2, 3], .initiated, 5⟩ 2 3).2.2.1).2
     (by exact ⟨by decide, by decide, by decide⟩)⟩

/-- Claim C8: whitelisting the local chain id fails with InvalidChainId,
whitelisting an already whitelisted chain fails with
ChainAlreadyWhitelisted, and otherwise an entry with nonce 0 is inserted
and ChainWhitelisted is emitted. -/
theorem whitelist_characterization (cfg : BridgeConfig P) (s : BridgeState P) (c : Nat) :
    (c = cfg.chainId → whitelist cfg s c = (s, some (.module .invalidChainId))) ∧
    (c ≠ cfg.chainId → chain_whitelisted s c = true →
      whitelist cfg s c = (s, some (.module .chainAlreadyWhitelisted))) ∧
    (c ≠ cfg.chainId → chain_whitelisted s c = false →
      whitelist cfg s c =
        ({ s with chainNonces := insertA s.chainNonces c 0,
                  events := s.events ++ [.chainWhitelisted c] }, none) ∧
      lookupA (whitelist cfg s c).1.chainNonces c = some 0) := by
  refine ⟨?_, ?_, ?_⟩
  · intro h
    simp [whitelist, h]
  · intro h hw
    simp [whitelist, h, hw]
  · intro h hw
    simp [whitelist, h, hw, deposit_event, lookupA_insertA_self]

/-- Witness for C8: with local chain id 5 the call whitelist(5) fails with
InvalidChainId, and whitelisting a fresh chain 2 stores nonce 0. -/
theorem whitelist_characterization_witness :
    whitelist (P := Nat)
        { chainId := 5, proposalLifetime := 10, palletAccount := 99,
          dispatchCall := fun _ _ => none }
        { chainNonces := [], relayerThreshold := none, relayers := [],
          relayerCount := 0, votes := [], resources := [], events := [],
          blockNumber := 0 } 5 =
      ({ chainNonces := [], relayerThreshold := none, relayers := [],
         relayerCount := 0, votes := [], resources := [], events := [],
         blockNumber := 0 }, some (.module .invalidChainId)) ∧
    lookupA (whitelist (P := Nat)
        { chainId := 5, proposalLifetime := 10, palletAccount := 99,
          dispatchCall := fun _ _ => none }
        { chainNonces := [], relayerThreshold := none, relayers := [],
          relayerCount := 0, votes := [], resources := [], events := [],
          blockNumber := 0 } 2).1.chainNonces 2 = some 0 :=
  ⟨(whitelist_characterization _ _ 5).1 rfl,
   ((whitelist_characterization _ _ 2).2.2 (by decide) (by decide)).2⟩

/-! Lemmas for the copy loop of derive_resource_id. -/

theorem foldl_set_length (g : Nat → Nat) (l : List Nat) (r : List Nat) :
    (l.foldl (fun racc i => racc.set (30 - i) (g i)) r).length = r.length := by
  induction l generalizing r with
  | nil => rfl
  | cons hd tl ih => rw [List.foldl_cons, ih, List.length_set]

theorem foldl_set_window (g : Nat → Nat) (n : Nat) (hn : n ≤ 31) (r : List Nat)
    (hr : r.length = 32) (j : Nat) :
    ((List.range n).foldl (fun racc i => racc.set (30 - i) (g i)) r)[j]? =
      if 31 - n ≤ j ∧ j ≤ 30 then some (g (30 - j)) else r[j]? := by
  induction n with
  | zero =>
    have : ¬ (31 - 0 ≤ j ∧ j ≤ 30) := by omega
    simp [this]
  | succ n ih =>
    rw [List.range_succ, List.foldl_append, List.foldl_cons, List.foldl_nil]
    have hlen : ((List.range n).foldl (fun racc i => racc.set (30 - i) (g i)) r).length = 32 :=
      (foldl_set_length g _ r).trans hr
    by_cases hj : j = 30 - n
    · subst hj
      rw [List.getElem?_set_self (by omega)]
      have hcond : 31 - (n + 1) ≤ 30 - n ∧ 30 - n ≤ 30 := by omega
      rw [if_pos hcond]
      have : 30 - (30 - n) = n := by omega
      rw [this]
    · rw [List.getElem?_set_ne (by omega), ih (by omega)]
      have hcond : (31 - n ≤ j ∧ j ≤ 30) ↔ (31 - (n + 1) ≤ j ∧ j ≤ 30) := by omega
      simp only [hcond]

/-- Claim C5: derive_resource_id produces a 32-byte array whose last byte
is the chain id, whose trailing min(len, 31) payload bytes are the
truncated id right-aligned so its last byte lands at index 30, and whose
remaining leading bytes are zero. -/
theorem derive_resource_id_spec (chain : Nat) (id : List Nat) :
    (derive_resource_id chain id).length = 32 ∧
    (derive_resource_id chain id).getD 31 0 = chain ∧
    (∀ i, i < min id.length 31 →
      (derive_resource_id chain id).getD (30 - i) 0 =
        id.getD (min id.length 31 - 1 - i) 0) ∧
    (∀ j, j < 31 - min id.length 31 → (derive_resource_id chain id).getD j 0 = 0) := by
  have hL : (if id.length > 31 then 31 else id.length) = min id.length 31 := by
    rcases le_or_lt id.length 31 with h | h
    · rw [if_neg (by omega), Nat.min_eq_left h]
    · rw [if_pos (by omega), Nat.min_eq_right (by omega)]
  have hr0len : ((List.replicate 32 0).set 31 chain).length = 32 := by simp
  have hdef : derive_resource_id chain id =
      (List.range (min id.length 31)).foldl
        (fun racc i => racc.set (30 - i) (id.getD (min id.length 31 - 1 - i) 0))
        ((List.replicate 32 0).set 31 chain) := by
    simp only [derive_resource_id, hL]
  have hwin := foldl_set_window (fun i => id.getD (min id.length 31 - 1 - i) 0)
    (min id.length 31) (by omega) ((List.replicate 32 0).set 31 chain) hr0len
  simp only at hwin
  refine ⟨?_, ?_, ?_, ?_⟩
  · rw [hdef, foldl_set_length, hr0len]
  · rw [hdef, List.getD_eq_getElem?_getD, hwin 31, if_neg (by omega),
      List.getElem?_set_self (by simp)]
    rfl
  · intro i hi
    rw [hdef, List.getD_eq_getElem?_getD, hwin (30 - i), if_pos (by omega)]
    have h30 : 30 - (30 - i) = i := by omega
    rw [h30]
    rfl
  · intro j hj
    rw [hdef, List.getD_eq_getElem?_getD, hwin j, if_neg (by omega),
      List.getElem?_set_ne (by omega), List.getElem?_replicate, if_pos (by omega)]
    rfl

/-- Witness for C5 at the repository's own test vector: chain 1 and a
20-byte id give eleven leading zeros, the payload, then the chain byte. -/
theorem derive_resource_id_spec_witness :
    (derive_resource_id 1 [33, 96, 95, 113, 132, 95, 55, 42, 158, 216, 66, 83,
        210, 208, 36, 183, 177, 9, 153, 244]).getD 31 0 = 1 ∧
    (derive_resource_id 1 [33, 96, 95, 113, 132, 95, 55, 42, 158, 216, 66, 83,
        210, 208, 36, 183, 177, 9, 153, 244]).getD 30 0 = 244 ∧
    (derive_resource_id 1 [33, 96, 95, 113, 132, 95, 55, 42, 158, 216, 66, 83,
        210, 208, 36, 183, 177, 9, 153, 244]).getD 11 0 = 33 ∧
    (derive_resource_id 1 [33, 96, 95, 113, 132, 95, 55, 42, 158, 216, 66, 83,
        210, 208, 36, 183, 177, 9, 153, 244]).getD 0 0 = 0 :=
  ⟨(derive_resource_id_spec 1 _).2.1,
   by
    have h := (derive_resource_id_spec 1 [33, 96, 95, 113, 132, 95, 55, 42, 158,
      216, 66, 83, 210, 208, 36, 183, 177, 9, 153, 244]).2.2.1 0 (by decide)
    simpa using h,
   by
    have h := (derive_resource_id_spec 1 [33, 96, 95, 113, 132, 95, 55, 42, 158,
      216, 66, 83, 210, 208, 36, 183, 177, 9, 153, 244]).2.2.1 19 (by decide)
    simpa using h,
   by
    have h := (derive_resource_id_spec 1 [33, 96, 95, 113, 132, 95, 55, 42, 158,
      216, 66, 83, 210, 208, 36, 183, 177, 9, 153, 244]).2.2.2 0 (by decide)
    simpa using h⟩

/-! Helper lemmas about the vote engine. -/

theorem try_to_complete_expiry (v : ProposalVotes) (K N : Nat) :
    (v.try_to_complete K N).1.expiry = v.expiry := by
  unfold ProposalVotes.try_to_complete
  split_ifs <;> rfl

theorem try_to_complete_status (v : ProposalVotes) (K N : Nat)
    (hst : v.status = .initiated) :
    (v.try_to_complete K N).1.status = (v.try_to_complete K N).2 := by
  unfold ProposalVotes.try_to_complete
  split_ifs <;> simp [hst]

/-- Full behavior of try_resolve_proposal on a stored, still-Initiated,
unexpired record, by the status the resolution function returns. -/
theorem try_resolve_eq {P : Type} [DecidableEq P] (cfg : BridgeConfig P)
    (s : BridgeState P) (nonce src : Nat) (prop : P) (v : ProposalVotes)
    (hv : lookupA s.votes (src, nonce, prop) = some v)
    (hst : v.status = .initiated)
    (hexp : s.blockNumber < v.expiry) :
    try_resolve_proposal cfg s nonce src prop =
      match (v.try_to_complete (get_relayer_threshold s) s.relayerCount).2 with
      | .approved =>
        match cfg.dispatchCall prop (.signed cfg.palletAccount) with
        | none =>
          ({ s with
              votes := insertA s.votes (src, nonce, prop)
                (v.try_to_complete (get_relayer_threshold s) s.relayerCount).1,
              events := s.events ++
                [.proposalApproved src nonce, .proposalSucceeded src nonce] },
            none)
        | some e =>
          ({ s with
              votes := insertA s.votes (src, nonce, prop)
                (v.try_to_complete (get_relayer_threshold s) s.relayerCount).1,
              events := s.events ++ [.proposalApproved src nonce] },
            some e)
      | .rejected =>
        ({ s with
            votes := insertA s.votes (src, nonce, prop)
              (v.try_to_complete (get_relayer_threshold s) s.relayerCount).1,
            events := s.events ++ [.proposalRejected src nonce] },
          none)
      | .initiated =>
        ({ s with
            votes := insertA s.votes (src, nonce, prop)
              (v.try_to_complete (get_relayer_threshold s) s.relayerCount).1 },
          none) := by
  have hic : v.is_complete = false := by
    simp [ProposalVotes.is_complete, hst]
  have hie : v.is_expired s.blockNumber = false := by
    simp [ProposalVotes.is_expired]; omega
  simp only [try_resolve_proposal, hv, hic, hie, Bool.false_eq_true, if_false]
  rcases htc : v.try_to_complete (get_relayer_threshold s) s.relayerCount with ⟨v', st⟩
  cases st with
  | approved =>
    simp only [finalize_execution, deposit_event]
    cases cfg.dispatchCall prop (.signed cfg.palletAccount) with
    | none => simp
    | some e => simp
  | rejected => simp [cancel_execution, deposit_event]
  | initiated => simp

/-- Claim C2 (amended): when resolution approves a proposal, the Approved
record is persisted and ProposalApproved emitted before the carried call is
dispatched under the bridge account's signed origin; a successful dispatch
emits ProposalSucceeded and returns Ok, while a failed dispatch returns the
dispatch error to the caller without emitting any further event — in
particular no ProposalFailed event is emitted. -/
theorem approval_dispatch_no_failed_event {P : Type} [DecidableEq P]
    (cfg : BridgeConfig P) (s : BridgeState P)
    (nonce src : Nat) (prop : P) (v : ProposalVotes)
    (hv : lookupA s.votes (src, nonce, prop) = some v)
    (hst : v.status = .initiated)
    (hexp : s.blockNumber < v.expiry)
    (hk : get_relayer_threshold s ≤ v.votes_for.length) :
    try_resolve_proposal cfg s nonce src prop =
      match cfg.dispatchCall prop (.signed cfg.palletAccount) with
      | none =>
        ({ s with
            votes := insertA s.votes (src, nonce, prop) { v with status := .approved },
            events := s.events ++
              [.proposalApproved src nonce, .proposalSucceeded src nonce] },
          none)
      | some e =>
        ({ s with
            votes := insertA s.votes (src, nonce, prop) { v with status := .approved },
            events := s.events ++ [.proposalApproved src nonce] },
          some e) := by
  have htc : v.try_to_complete (get_relayer_threshold s) s.relayerCount =
      ({ v with status := .approved }, .approved) := by
    unfold ProposalVotes.try_to_complete
    rw [if_pos hk]
  rw [try_resolve_eq cfg s nonce src prop v hv hst hexp, htc]

/-- Counterexample for C2 as stated: with one relayer and threshold 1,
relayer 2 acknowledges proposal (src 1, nonce 1); the proposal approves and
the carried call's dispatch fails, yet the extrinsic returns the dispatch
error without emitting any ProposalFailed event. -/
theorem approval_dispatch_failed_event_counterexample :
    (acknowledge_proposal cfgFail st1 (.signed 2) 1 1 sampleRid 0).2 =
      some (.other 7) ∧
    (acknowledge_proposal cfgFail st1 (.signed 2) 1 1 sampleRid 0).1.events =
      [.voteFor 1 1 2, .proposalApproved 1 1] ∧
    Event.proposalFailed 1 1 ∉
      (acknowledge_proposal cfgFail st1 (.signed 2) 1 1 sampleRid 0).1.events := by
  decide

/-- Witness for the amended C2: a ready two-vote record under threshold 2
resolves Approved and, with a succeeding dispatch, emits ProposalApproved
then ProposalSucceeded and returns Ok. -/
theorem approval_dispatch_no_failed_event_witness :
    try_resolve_proposal cfgOk stC10 1 1 0 =
      ({ stC10 with
          votes := insertA stC10.votes (1, 1, 0)
            { votes_for := [7, 8], votes_against := [], status := .approved,
              expiry := 11 },
          events := stC10.events ++ [.proposalApproved 1 1, .proposalSucceeded 1 1] },
        none) :=
  approval_dispatch_no_failed_event cfgOk stC10 1 1 0
    { votes_for := [7, 8], votes_against := [], status := .initiated, expiry := 11 }
    (by decide) rfl (by decide) (by decide)

/-- Claim C3: once a proposal record is terminal (Approved or Rejected),
every acknowledge_proposal, reject_proposal or eval_vote_state aimed at it
fails and leaves the whole state (in particular the stored record)
unchanged, so terminal statuses are never re-entered; whenever the vote
admission checks pass (and always for eval by a signed account) the error
is ProposalAlreadyComplete. -/
theorem terminal_proposal_immutable {P : Type} [DecidableEq P]
    (cfg : BridgeConfig P) (s : BridgeState P)
    (src nonce : Nat) (prop : P) (v : ProposalVotes)
    (hv : lookupA s.votes (src, nonce, prop) = some v)
    (hterm : v.status ≠ .initiated) :
    (∀ origin rId, (acknowledge_proposal cfg s origin nonce src rId prop).1 = s ∧
        (acknowledge_proposal cfg s origin nonce src rId prop).2 ≠ none) ∧
    (∀ origin rId, (reject_proposal cfg s origin nonce src rId prop).1 = s ∧
        (reject_proposal cfg s origin nonce src rId prop).2 ≠ none) ∧
    (∀ who, eval_vote_state cfg s (.signed who) nonce src prop =
        (s, some (.module .proposalAlreadyComplete))) ∧
    (∀ who rId, is_relayer s who = true → chain_whitelisted s src = true →
      resource_exists s rId = true →
      acknowledge_proposal cfg s (.signed who) nonce src rId prop =
        (s, some (.module .proposalAlreadyComplete)) ∧
      reject_proposal cfg s (.signed who) nonce src rId prop =
        (s, some (.module .proposalAlreadyComplete))) := by
  have hic : v.is_complete = true := by
    simp [ProposalVotes.is_complete, hterm]
  have hcommit : ∀ who b, commit_vote cfg s who nonce src prop b =
      (s, some (.module .proposalAlreadyComplete)) := by
    intro who b
    simp only [commit_vote, hv, hic, if_true]
  have hresolve : try_resolve_proposal cfg s nonce src prop =
      (s, some (.module .proposalAlreadyComplete)) := by
    simp only [try_resolve_proposal, hv, hic, if_true]
  have hvf : ∀ who, vote_for cfg s who nonce src prop =
      (s, some (.module .proposalAlreadyComplete)) := by
    intro who
    simp only [vote_for, hcommit]
  have hva : ∀ who, vote_against cfg s who nonce src prop =
      (s, some (.module .proposalAlreadyComplete)) := by
    intro who
    simp only [vote_against, hcommit]
  refine ⟨?_, ?_, ?_, ?_⟩
  · intro origin rId
    cases origin with
    | root => simp [acknowledge_proposal, ensure_signed]
    | nobody => simp [acknowledge_proposal, ensure_signed]
    | signed who =>
      simp only [acknowledge_proposal, ensure_signed]
      by_cases h1 : is_relayer s who
      · by_cases h2 : chain_whitelisted s src
        · by_cases h3 : resource_exists s rId
          · simp [h1, h2, h3, hvf]
          · simp [h1, h2, h3]
        · simp [h1, h2]
      · simp [h1]
  · intro origin rId
    cases origin with
    | root => simp [reject_proposal, ensure_signed]
    | nobody => simp [reject_proposal, ensure_signed]
    | signed who =>
      simp only [reject_proposal, ensure_signed]
      by_cases h1 : is_relayer s who
      · by_cases h2 : chain_whitelisted s src
        · by_cases h3 : resource_exists s rId
          · simp [h1, h2, h3, hva]
          · simp [h1, h2, h3]
        · simp [h1, h2]
      · simp [h1]
  · intro who
    simp only [eval_vote_state, ensure_signed]
    exact hresolve
  · intro who rId h1 h2 h3
    constructor
    · simp [acknowledge_proposal, ensure_signed, h1, h2, h3, hvf]
    · simp [reject_proposal, ensure_signed, h1, h2, h3, hva]

/-- Witness for C3: on a proposal already Approved, an eval by any signed
account and a vote by the remaining relayer both fail with
ProposalAlreadyComplete leaving the state unchanged. -/
theorem terminal_proposal_immutable_witness :
    eval_vote_state cfgOk stTerm (.signed 9) 1 1 0 =
      (stTerm, some (.module .proposalAlreadyComplete)) ∧
    acknowledge_proposal cfgOk stTerm (.signed 4) 1 1 sampleRid 0 =
      (stTerm, some (.module .proposalAlreadyComplete)) ∧
    reject_proposal cfgOk stTerm (.signed 4) 1 1 sampleRid 0 =
      (stTerm, some (.module .proposalAlreadyComplete)) :=
  have h := terminal_proposal_immutable cfgOk stTerm 1 1 0
    { votes_for := [2, 3], votes_against := [], status := .approved, expiry := 11 }
    (by decide) (by decide)
  ⟨h.2.2.1 9,
   (h.2.2.2 4 sampleRid (by decide) (by decide) (by decide)).1,
   (h.2.2.2 4 sampleRid (by decide) (by decide) (by decide)).2⟩

/-- Claim C6: acknowledge_proposal and reject_proposal run their admission
checks in order — MustBeRelayer for a non-relayer caller, then
ChainNotWhitelisted for a non-whitelisted source chain, then
ResourceDoesNotExist for an unregistered resource id — failing without
touching or creating the vote record; once those pass, a caller already
recorded in votes_for or votes_against of the still-active record fails
with RelayerAlreadyVoted. -/
theorem admission_check_order {P : Type} [DecidableEq P]
    (cfg : BridgeConfig P) (s : BridgeState P)
    (who nonce src : Nat) (rId : ResourceId) (prop : P) :
    (is_relayer s who = false →
      acknowledge_proposal cfg s (.signed who) nonce src rId prop =
        (s, some (.module .mustBeRelayer)) ∧
      reject_proposal cfg s (.signed who) nonce src rId prop =
        (s, some (.module .mustBeRelayer))) ∧
    (is_relayer s who = true → chain_whitelisted s src = false →
      acknowledge_proposal cfg s (.signed who) nonce src rId prop =
        (s, some (.module .chainNotWhitelisted)) ∧
      reject_proposal cfg s (.signed who) nonce src rId prop =
        (s, some (.module .chainNotWhitelisted))) ∧
    (is_relayer s who = true → chain_whitelisted s src = true →
      resource_exists s rId = false →
      acknowledge_proposal cfg s (.signed who) nonce src rId prop =
        (s, some (.module .resourceDoesNotExist)) ∧
      reject_proposal cfg s (.signed who) nonce src rId prop =
        (s, some (.module .resourceDoesNotExist))) ∧
    (∀ v, is_relayer s who = true → chain_whitelisted s src = true →
      resource_exists s rId = true →
      lookupA s.votes (src, nonce, prop) = some v → v.status = .initiated →
      s.blockNumber < v.expiry → v.has_voted who = true →
      acknowledge_proposal cfg s (.signed who) nonce src rId prop =
        (s, some (.module .relayerAlreadyVoted)) ∧
      reject_proposal cfg s (.signed who) nonce src rId prop =
        (s, some (.module .relayerAlreadyVoted))) := by
  refine ⟨?_, ?_, ?_, ?_⟩
  · intro h1
    constructor
    · simp [acknowledge_proposal, ensure_signed, h1]
    · simp [reject_proposal, ensure_signed, h1]
  · intro h1 h2
    constructor
    · simp [acknowledge_proposal, ensure_signed, h1, h2]
    · simp [reject_proposal, ensure_signed, h1, h2]
  · intro h1 h2 h3
    constructor
    · simp [acknowledge_proposal, ensure_signed, h1, h2, h3]
    · simp [reject_proposal, ensure_signed, h1, h2, h3]
  · intro v h1 h2 h3 hv hst hexp hvoted
    have hic : v.is_complete = false := by
      simp [ProposalVotes.is_complete, hst]
    have hie : v.is_expired s.blockNumber = false := by
      simp [ProposalVotes.is_expired]; omega
    have hcommit : ∀ b, commit_vote cfg s who nonce src prop b =
        (s, some (.module .relayerAlreadyVoted)) := by
      intro b
      simp only [commit_vote, hv, hic, hie, hvoted, Bool.false_eq_true, if_false,
        if_true]
    constructor
    · simp [acknowledge_proposal, ensure_signed, h1, h2, h3, vote_for, hcommit]
    · simp [reject_proposal, ensure_signed, h1, h2, h3, vote_against, hcommit]

/-- Witness for C6: a non-relayer gets MustBeRelayer, a relayer voting on a
non-whitelisted chain gets ChainNotWhitelisted, an unregistered resource
gets ResourceDoesNotExist, and relayer 2 re-voting on the active proposal
it already voted for gets RelayerAlreadyVoted. -/
theorem admission_check_order_witness :
    acknowledge_proposal cfgOk stVoted (.signed 9) 1 1 sampleRid 0 =
      (stVoted, some (.module .mustBeRelayer)) ∧
    acknowledge_proposal cfgOk stVoted (.signed 2) 1 3 sampleRid 0 =
      (stVoted, some (.module .chainNotWhitelisted)) ∧
    acknowledge_proposal cfgOk stVoted (.signed 2) 1 1 [9, 9] 0 =
      (stVoted, some (.module .resourceDoesNotExist)) ∧
    acknowledge_proposal cfgOk stVoted (.signed 2) 1 1 sampleRid 0 =
      (stVoted, some (.module .relayerAlreadyVoted)) ∧
    reject_proposal cfgOk stVoted (.signed 2) 1 1 sampleRid 0 =
      (stVoted, some (.module .relayerAlreadyVoted)) :=
  have h4 := (admission_check_order cfgOk stVoted 2 1 1 sampleRid 0).2.2.2
    { votes_for := [2], votes_against := [], status := .initiated, expiry := 11 }
    (by decide) (by decide) (by decide) (by decide) rfl (by decide) (by decide)
  ⟨((admission_check_order cfgOk stVoted 9 1 1 sampleRid 0).1 (by decide)).1,
   ((admission_check_order cfgOk stVoted 2 1 3 sampleRid 0).2.1 (by decide) (by decide)).1,
   ((admission_check_order cfgOk stVoted 2 1 1 [9, 9] 0).2.2.1 (by decide) (by decide)
     (by decide)).1,
   h4.1, h4.2⟩

theorem try_resolve_votes {P : Type} [DecidableEq P] (cfg : BridgeConfig P)
    (s : BridgeState P) (nonce src : Nat) (prop : P) (v : ProposalVotes)
    (hv : lookupA s.votes (src, nonce, prop) = some v)
    (hst : v.status = .initiated)
    (hexp : s.blockNumber < v.expiry) :
    (try_resolve_proposal cfg s nonce src prop).1.votes =
      insertA s.votes (src, nonce, prop)
        (v.try_to_complete (get_relayer_threshold s) s.relayerCount).1 := by
  rw [try_resolve_eq cfg s nonce src prop v hv hst hexp]
  cases (v.try_to_complete (get_relayer_threshold s) s.relayerCount).2 with
  | initiated => rfl
  | approved => cases cfg.dispatchCall prop (.signed cfg.palletAccount) <;> rfl
  | rejected => rfl

theorem commit_vote_fresh {P : Type} [DecidableEq P] (cfg : BridgeConfig P)
    (s : BridgeState P) (who nonce src : Nat) (prop : P)
    (hnone : lookupA s.votes (src, nonce, prop) = none)
    (hL : 0 < cfg.proposalLifetime) :
    commit_vote cfg s who nonce src prop true =
      ({ s with
          events := s.events ++ [.voteFor src nonce who],
          votes := insertA s.votes (src, nonce, prop)
            { votes_for := [who], votes_against := [], status := .initiated,
              expiry := s.blockNumber + cfg.proposalLifetime } }, none) := by
  have hie : ({ ProposalVotes.default with
      expiry := s.blockNumber + cfg.proposalLifetime } : ProposalVotes).is_expired
        s.blockNumber = false := by
    simp [ProposalVotes.is_expired]; omega
  simp only [commit_vote, hnone, hie, Bool.false_eq_true, if_false]
  simp [ProposalVotes.is_complete, ProposalVotes.has_voted, ProposalVotes.default,
    deposit_event]

theorem vote_for_fresh {P : Type} [DecidableEq P] (cfg : BridgeConfig P)
    (s : BridgeState P) (who nonce src : Nat) (prop : P)
    (hnone : lookupA s.votes (src, nonce, prop) = none)
    (hL : 0 < cfg.proposalLifetime) :
    vote_for cfg s who nonce src prop =
      try_resolve_proposal cfg
        { s with
            events := s.events ++ [.voteFor src nonce who],
            votes := insertA s.votes (src, nonce, prop)
              { votes_for := [who], votes_against := [], status := .initiated,
                expiry := s.blockNumber + cfg.proposalLifetime } }
        nonce src prop := by
  simp only [vote_for, commit_vote_fresh cfg s who nonce src prop hnone hL]

theorem try_resolve_expiry {P : Type} [DecidableEq P] (cfg : BridgeConfig P)
    (s : BridgeState P) (nonce src : Nat) (prop : P) (v : ProposalVotes)
    (hv : lookupA s.votes (src, nonce, prop) = some v)
    (hst : v.status = .initiated)
    (hexp : s.blockNumber < v.expiry) :
    ((lookupA (try_resolve_proposal cfg s nonce src prop).1.votes
        (src, nonce, prop)).getD ProposalVotes.default).expiry = v.expiry := by
  rw [try_resolve_votes cfg s nonce src prop v hv hst hexp, lookupA_insertA_self]
  simp [try_to_complete_expiry]

theorem try_resolve_status {P : Type} [DecidableEq P] (cfg : BridgeConfig P)
    (s : BridgeState P) (nonce src : Nat) (prop : P) (v : ProposalVotes)
    (hv : lookupA s.votes (src, nonce, prop) = some v)
    (hst : v.status = .initiated)
    (hexp : s.blockNumber < v.expiry) :
    ((lookupA (try_resolve_proposal cfg s nonce src prop).1.votes
        (src, nonce, prop)).getD ProposalVotes.default).status =
      (v.try_to_complete (get_relayer_threshold s) s.relayerCount).2 := by
  rw [try_resolve_votes cfg s nonce src prop v hv hst hexp, lookupA_insertA_self]
  simp [try_to_complete_status v _ _ hst]

theorem try_resolve_approved_event {P : Type} [DecidableEq P] (cfg : BridgeConfig P)
    (s : BridgeState P) (nonce src : Nat) (prop : P) (v : ProposalVotes)
    (hv : lookupA s.votes (src, nonce, prop) = some v)
    (hst : v.status = .initiated)
    (hexp : s.blockNumber < v.expiry)
    (happ : (v.try_to_complete (get_relayer_threshold s) s.relayerCount).2 = .approved) :
    Event.proposalApproved src nonce ∈ (try_resolve_proposal cfg s nonce src prop).1.events := by
  rw [try_resolve_eq cfg s nonce src prop v hv hst hexp, happ]
  cases cfg.dispatchCall prop (.signed cfg.palletAccount) <;> simp

/-- Claim C7: the record created by a first vote expires at
creation block + ProposalLifetime; once an Initiated record's expiry block
is reached, votes (after admission) and evals fail with ProposalExpired
leaving the state unchanged; and a vote cast strictly before the expiry
block never fails the expiry check. -/
theorem proposal_expiry_behavior {P : Type} [DecidableEq P]
    (cfg : BridgeConfig P) (s : BridgeState P)
    (who nonce src : Nat) (rId : ResourceId) (prop : P) :
    (lookupA s.votes (src, nonce, prop) = none → is_relayer s who = true →
      chain_whitelisted s src = true → resource_exists s rId = true →
      0 < cfg.proposalLifetime →
      ((lookupA (acknowledge_proposal cfg s (.signed who) nonce src rId prop).1.votes
          (src, nonce, prop)).getD ProposalVotes.default).expiry =
        s.blockNumber + cfg.proposalLifetime) ∧
    (∀ v, lookupA s.votes (src, nonce, prop) = some v → v.status = .initiated →
      v.expiry ≤ s.blockNumber → is_relayer s who = true →
      chain_whitelisted s src = true → resource_exists s rId = true →
      acknowledge_proposal cfg s (.signed who) nonce src rId prop =
        (s, some (.module .proposalExpired)) ∧
      reject_proposal cfg s (.signed who) nonce src rId prop =
        (s, some (.module .proposalExpired)) ∧
      eval_vote_state cfg s (.signed who) nonce src prop =
        (s, some (.module .proposalExpired))) ∧
    (∀ v b, lookupA s.votes (src, nonce, prop) = some v →
      s.blockNumber < v.expiry →
      (commit_vote cfg s who nonce src prop b).2 ≠
        some (.module .proposalExpired)) := by
  refine ⟨?_, ?_, ?_⟩
  · intro hnone h1 h2 h3 hL
    have hack : acknowledge_proposal cfg s (.signed who) nonce src rId prop =
        vote_for cfg s who nonce src prop := by
      simp [acknowledge_proposal, ensure_signed, h1, h2, h3]
    rw [hack, vote_for_fresh cfg s who nonce src prop hnone hL]
    exact try_resolve_expiry cfg _ nonce src prop
      { votes_for := [who], votes_against := [], status := .initiated,
        expiry := s.blockNumber + cfg.proposalLifetime }
      (lookupA_insertA_self _ _ _) rfl (Nat.lt_add_of_pos_right hL)
  · intro v hv hst hexpd h1 h2 h3
    have hic : v.is_complete = false := by
      simp [ProposalVotes.is_complete, hst]
    have hie : v.is_expired s.blockNumber = true := by
      simp [ProposalVotes.is_expired, hexpd]
    have hcommit : ∀ b, commit_vote cfg s who nonce src prop b =
        (s, some (.module .proposalExpired)) := by
      intro b
      simp only [commit_vote, hv, hic, hie, Bool.false_eq_true, if_false, if_true]
    have hresolve : try_resolve_proposal cfg s nonce src prop =
        (s, some (.module .proposalExpired)) := by
      simp only [try_resolve_proposal, hv, hic, hie, Bool.false_eq_true, if_false,
        if_true]
    refine ⟨?_, ?_, ?_⟩
    · simp [acknowledge_proposal, ensure_signed, h1, h2, h3, vote_for, hcommit]
    · simp [reject_proposal, ensure_signed, h1, h2, h3, vote_against, hcommit]
    · simp [eval_vote_state, ensure_signed, hresolve]
  · intro v b hv hlt
    have hie : v.is_expired s.blockNumber = false := by
      simp [ProposalVotes.is_expired]; omega
    cases hic : v.is_complete with
    | true => simp [commit_vote, hv, hic]
    | false =>
      cases hhv : v.has_voted who with
      | true => simp [commit_vote, hv, hic, hie, hhv]
      | false => cases b <;> simp [commit_vote, hv, hic, hie, hhv]

/-- Witness for C7: with lifetime 10 a first vote at block 1 creates a
record expiring at block 11; at block 11 a further vote on it fails with
ProposalExpired; and at block 1 a vote on an unexpired record does not
fail the expiry check. -/
theorem proposal_expiry_behavior_witness :
    ((lookupA (acknowledge_proposal cfgOk st2 (.signed 2) 1 1 sampleRid 0).1.votes
        (1, 1, 0)).getD ProposalVotes.default).expiry = 11 ∧
    acknowledge_proposal cfgOk stExp (.signed 3) 1 1 sampleRid 0 =
      (stExp, some (.module .proposalExpired)) ∧
    (commit_vote cfgOk stVoted 3 1 1 0 true).2 ≠ some (.module .proposalExpired) :=
  ⟨by
    have h := (proposal_expiry_behavior cfgOk st2 2 1 1 sampleRid 0).1
      (by decide) (by decide) (by decide) (by decide) (by decide)
    simpa [st2, cfgOk] using h,
   ((proposal_expiry_behavior cfgOk stExp 3 1 1 sampleRid 0).2.1
      { votes_for := [2], votes_against := [], status := .initiated, expiry := 11 }
      (by decide) rfl (by decide) (by decide) (by decide) (by decide)).1,
   (proposal_expiry_behavior cfgOk stVoted 3 1 1 sampleRid 0).2.2
      { votes_for := [2], votes_against := [], status := .initiated, expiry := 11 }
      true (by decide) (by decide)⟩

/-- Claim C9: with the threshold storage never written, reading it yields
the default 1, and a single favorable vote by a relayer on a fresh
proposal is enough to approve it (the stored record becomes Approved and
ProposalApproved is emitted). -/
theorem default_threshold_single_vote {P : Type} [DecidableEq P]
    (cfg : BridgeConfig P) (s : BridgeState P)
    (who nonce src : Nat) (rId : ResourceId) (prop : P)
    (hthr : s.relayerThreshold = none)
    (h1 : is_relayer s who = true)
    (h2 : chain_whitelisted s src = true)
    (h3 : resource_exists s rId = true)
    (hnone : lookupA s.votes (src, nonce, prop) = none)
    (hL : 0 < cfg.proposalLifetime) :
    get_relayer_threshold s = 1 ∧
    ((lookupA (acknowledge_proposal cfg s (.signed who) nonce src rId prop).1.votes
        (src, nonce, prop)).getD ProposalVotes.default).status = .approved ∧
    Event.proposalApproved src nonce ∈
      (acknowledge_proposal cfg s (.signed who) nonce src rId prop).1.events := by
  have hthr1 : get_relayer_threshold s = 1 := by
    simp [get_relayer_threshold, hthr, DEFAULT_RELAYER_THRESHOLD]
  have happr : ∀ t : BridgeState P, t.relayerThreshold = none →
      (ProposalVotes.try_to_complete
        { votes_for := [who], votes_against := [], status := .initiated,
          expiry := s.blockNumber + cfg.proposalLifetime }
        (get_relayer_threshold t) t.relayerCount).2 = .approved := by
    intro t ht
    simp [ProposalVotes.try_to_complete, get_relayer_threshold, ht,
      DEFAULT_RELAYER_THRESHOLD]
  have hack : acknowledge_proposal cfg s (.signed who) nonce src rId prop =
      vote_for cfg s who nonce src prop := by
    simp [acknowledge_proposal, ensure_signed, h1, h2, h3]
  have hres := try_resolve_status cfg
    { s with
        events := s.events ++ [Event.voteFor src nonce who],
        votes := insertA s.votes (src, nonce, prop)
          { votes_for := [who], votes_against := [], status := .initiated,
            expiry := s.blockNumber + cfg.proposalLifetime } }
    nonce src prop
    { votes_for := [who], votes_against := [], status := .initiated,
      expiry := s.blockNumber + cfg.proposalLifetime }
    (lookupA_insertA_self _ _ _) rfl (Nat.lt_add_of_pos_right hL)
  refine ⟨hthr1, ?_, ?_⟩
  · rw [hack, vote_for_fresh cfg s who nonce src prop hnone hL, hres]
    exact happr _ hthr
  · rw [hack, vote_for_fresh cfg s who nonce src prop hnone hL]
    exact try_resolve_approved_event cfg _ nonce src prop
      { votes_for := [who], votes_against := [], status := .initiated,
        expiry := s.blockNumber + cfg.proposalLifetime }
      (lookupA_insertA_self _ _ _) rfl (Nat.lt_add_of_pos_right hL) (happr _ hthr)

/-- Witness for C9: in a state whose threshold was never set, relayer 2's
single acknowledgement approves a fresh proposal. -/
theorem default_threshold_single_vote_witness :
    get_relayer_threshold stDef = 1 ∧
    ((lookupA (acknowledge_proposal cfgOk stDef (.signed 2) 1 1 sampleRid 0).1.votes
        (1, 1, 0)).getD ProposalVotes.default).status = .approved ∧
    Event.proposalApproved 1 1 ∈
      (acknowledge_proposal cfgOk stDef (.signed 2) 1 1 sampleRid 0).1.events :=
  default_threshold_single_vote cfgOk stDef 2 1 1 sampleRid 0 rfl (by decide)
    (by decide) (by decide) (by decide) (by decide)

/-- Claim C10: removing a relayer leaves every stored proposal record
unchanged, so the removed relayer's past votes remain in the record, and a
later resolution counts them purely by list length against the current
threshold and the decremented relayer count, without re-checking relayer
membership. -/
theorem removed_relayer_votes_still_count {P : Type} [DecidableEq P]
    (cfg : BridgeConfig P) (s : BridgeState P)
    (x caller nonce src : Nat) (prop : P) (v : ProposalVotes)
    (hx : is_relayer s x = true)
    (_hcount : 0 < s.relayerCount)
    (hv : lookupA s.votes (src, nonce, prop) = some v)
    (_hvoted : x ∈ v.votes_for ∨ x ∈ v.votes_against)
    (hst : v.status = .initiated)
    (hexp : s.blockNumber < v.expiry) :
    (unregister_relayer s x).2 = none ∧
    is_relayer (unregister_relayer s x).1 x = false ∧
    (unregister_relayer s x).1.votes = s.votes ∧
    get_relayer_threshold (unregister_relayer s x).1 = get_relayer_threshold s ∧
    (unregister_relayer s x).1.relayerCount = s.relayerCount - 1 ∧
    ((lookupA (eval_vote_state cfg (unregister_relayer s x).1 (.signed caller)
        nonce src prop).1.votes (src, nonce, prop)).getD ProposalVotes.default).status =
      (v.try_to_complete (get_relayer_threshold s) (s.relayerCount - 1)).2 := by
  have hunreg : unregister_relayer s x =
      ({ s with relayers := removeA s.relayers x,
                relayerCount := s.relayerCount - 1,
                events := s.events ++ [.relayerRemoved x] }, none) := by
    simp [unregister_relayer, hx, deposit_event]
  refine ⟨?_, ?_, ?_, ?_, ?_, ?_⟩
  · rw [hunreg]
  · rw [hunreg]
    simp [is_relayer, lookupA_removeA_self]
  · rw [hunreg]
  · rw [hunreg]; rfl
  · rw [hunreg]
  · rw [hunreg]
    simp only [eval_vote_state, ensure_signed]
    exact try_resolve_status cfg _ nonce src prop v hv hst hexp

/-- Witness for C10: relayer 7 voted for a proposal and is then removed;
an eval still counts both recorded votes, approving with threshold 2 even
though only one relayer remains. -/
theorem removed_relayer_votes_still_count_witness :
    is_relayer (unregister_relayer stC10 7).1 7 = false ∧
    ((lookupA (eval_vote_state cfgOk (unregister_relayer stC10 7).1 (.signed 9)
        1 1 0).1.votes (1, 1, 0)).getD ProposalVotes.default).status = .approved :=
  have h := removed_relayer_votes_still_count cfgOk stC10 7 9 1 1 0
    { votes_for := [7, 8], votes_against := [], status := .initiated, expiry := 11 }
    (by decide) (by decide) (by decide) (Or.inl (by decide)) rfl (by decide)
  ⟨h.2.1, by rw [h.2.2.2.2.2]; decide⟩

/-! Lemmas for the outbound transfer nonce sequence. -/

theorem lookupA_filter_ne_other {α β : Type} [DecidableEq α] (l : List (α × β))
    (a a' : α) (h : a ≠ a') :
    lookupA (l.filter (fun p => p.1 ≠ a)) a' = lookupA l a' := by
  induction l with
  | nil => rfl
  | cons hd tl ih =>
    simp only [ne_eq, decide_not] at ih ⊢
    rw [List.filter_cons]
    by_cases hh : hd.1 = a
    · have hne : hd.1 ≠ a' := by rw [hh]; exact h
      simp [hh, lookupA, hne, ih, h]
    · by_cases hh' : hd.1 = a'
      · simp [hh, hh', lookupA, Ne.symm h]
      · simp [hh, hh', lookupA, ih]

theorem lookupA_insertA_ne {α β : Type} [DecidableEq α] (l : List (α × β))
    (a : α) (b : β) (a' : α) (h : a ≠ a') :
    lookupA (insertA l a b) a' = lookupA l a' := by
  simp only [insertA, lookupA, if_neg h]
  exact lookupA_filter_ne_other l a a' h

theorem applyXfers_cons {P : Type} (s : BridgeState P) (p : Nat × XferOp)
    (rest : List (Nat × XferOp)) :
    applyXfers s (p :: rest) = applyXfers (applyXfer s p.1 p.2) rest := rfl

theorem applyXfer_step {P : Type} (s : BridgeState P) (c k : Nat) (op : XferOp)
    (h : lookupA s.chainNonces c = some k) :
    lookupA (applyXfer s c op).chainNonces c = some (k + 1) ∧
    xferNonces c (applyXfer s c op).events = xferNonces c s.events ++ [k + 1] := by
  have hwl : chain_whitelisted s c = true := by simp [chain_whitelisted, h]
  cases op with
  | fungible rid recipient amount =>
    refine ⟨?_, ?_⟩
    · simp [applyXfer, transfer_fungible, hwl, bump_nonce, h, deposit_event,
        lookupA_insertA_self]
    · simp [applyXfer, transfer_fungible, hwl, bump_nonce, h, deposit_event,
        xferNonces, xferNonce]
  | nonfungible rid tokenId recipient metadata =>
    refine ⟨?_, ?_⟩
    · simp [applyXfer, transfer_nonfungible, hwl, bump_nonce, h, deposit_event,
        lookupA_insertA_self]
    · simp [applyXfer, transfer_nonfungible, hwl, bump_nonce, h, deposit_event,
        xferNonces, xferNonce]
  | generic rid metadata =>
    refine ⟨?_, ?_⟩
    · simp [applyXfer, transfer_generic, hwl, bump_nonce, h, deposit_event,
        lookupA_insertA_self]
    · simp [applyXfer, transfer_generic, hwl, bump_nonce, h, deposit_event,
        xferNonces, xferNonce]

theorem applyXfer_other {P : Type} (s : BridgeState P) (c d : Nat) (op : XferOp)
    (hdc : d ≠ c) :
    lookupA (applyXfer s d op).chainNonces c = lookupA s.chainNonces c ∧
    xferNonces c (applyXfer s d op).events = xferNonces c s.events := by
  cases op with
  | fungible rid recipient amount =>
    by_cases hwl : chain_whitelisted s d
    · refine ⟨?_, ?_⟩
      · simp [applyXfer, transfer_fungible, hwl, bump_nonce, deposit_event,
          lookupA_insertA_ne _ _ _ _ hdc]
      · simp [applyXfer, transfer_fungible, hwl, bump_nonce, deposit_event,
          xferNonces, xferNonce, hdc]
    · refine ⟨?_, ?_⟩ <;> simp [applyXfer, transfer_fungible, hwl]
  | nonfungible rid tokenId recipient metadata =>
    by_cases hwl : chain_whitelisted s d
    · refine ⟨?_, ?_⟩
      · simp [applyXfer, transfer_nonfungible, hwl, bump_nonce, deposit_event,
          lookupA_insertA_ne _ _ _ _ hdc]
      · simp [applyXfer, transfer_nonfungible, hwl, bump_nonce, deposit_event,
          xferNonces, xferNonce, hdc]
    · refine ⟨?_, ?_⟩ <;> simp [applyXfer, transfer_nonfungible, hwl]
  | generic rid metadata =>
    by_cases hwl : chain_whitelisted s d
    · refine ⟨?_, ?_⟩
      · simp [applyXfer, transfer_generic, hwl, bump_nonce, deposit_event,
          lookupA_insertA_ne _ _ _ _ hdc]
      · simp [applyXfer, transfer_generic, hwl, bump_nonce, deposit_event,
          xferNonces, xferNonce, hdc]
    · refine ⟨?_, ?_⟩ <;> simp [applyXfer, transfer_generic, hwl]

theorem applyXfers_nonces {P : Type} (c : Nat) (ops : List (Nat × XferOp)) :
    ∀ (s : BridgeState P) (k : Nat), lookupA s.chainNonces c = some k →
      xferNonces c (applyXfers s ops).events =
        xferNonces c s.events ++
          List.range' (k + 1) (ops.filter (fun p => p.1 = c)).length ∧
      lookupA (applyXfers s ops).chainNonces c =
        some (k + (ops.filter (fun p => p.1 = c)).length) := by
  induction ops with
  | nil =>
    intro s k h
    refine ⟨by simp [applyXfers], ?_⟩
    simpa [applyXfers] using h
  | cons p rest ih =>
    intro s k h
    rcases p with ⟨d, op⟩
    rw [applyXfers_cons]
    by_cases hdc : d = c
    · subst hdc
      obtain ⟨h1, h2⟩ := applyXfer_step s d k op h
      obtain ⟨ih1, ih2⟩ := ih (applyXfer s d op) (k + 1) h1
      have hfil : ((d, op) :: rest).filter (fun p => p.1 = d) =
          (d, op) :: rest.filter (fun p => p.1 = d) := by
        simp [List.filter_cons]
      refine ⟨?_, ?_⟩
      · rw [ih1, h2, hfil, List.length_cons, List.range'_succ, List.append_assoc,
          List.singleton_append]
      · rw [ih2, hfil, List.length_cons]
        congr 1
        omega
    · obtain ⟨h1, h2⟩ := applyXfer_other s c d op hdc
      obtain ⟨ih1, ih2⟩ := ih (applyXfer s d op) k (h1.trans h)
      have hfil : ((d, op) :: rest).filter (fun p => p.1 = c) =
          rest.filter (fun p => p.1 = c) := by
        simp [List.filter_cons, hdc]
      refine ⟨?_, ?_⟩
      · rw [ih1, h2, hfil]
      · rw [ih2, hfil]

/-- Claim C4: starting from a chain-nonce entry of 0 (as stored by
whitelisting) with no prior transfer events for destination c, any
sequence of outbound transfer calls makes the transfer events addressed to
c carry exactly the deposit nonces 1, 2, 3, … and leaves the stored nonce
equal to the number of transfers to c. -/
theorem outbound_nonce_sequence {P : Type} (s : BridgeState P) (c : Nat)
    (ops : List (Nat × XferOp))
    (h0 : lookupA s.chainNonces c = some 0)
    (hev : xferNonces c s.events = []) :
    xferNonces c (applyXfers s ops).events =
      List.range' 1 (ops.filter (fun p => p.1 = c)).length ∧
    lookupA (applyXfers s ops).chainNonces c =
      some ((ops.filter (fun p => p.1 = c)).length) := by
  obtain ⟨h1, h2⟩ := applyXfers_nonces c ops s 0 h0
  refine ⟨?_, ?_⟩
  · rw [h1, hev, List.nil_append]
  · rw [h2, Nat.zero_add]

/-- Witness for C4: three transfers to the freshly whitelisted chain 1,
interleaved with a transfer aimed at the non-whitelisted chain 2, emit
exactly the nonces 1, 2, 3. -/
theorem outbound_nonce_sequence_witness :
    xferNonces 1 (applyXfers st2
      [(1, .fungible sampleRid [2] 100), (2, .generic sampleRid []),
       (1, .generic sampleRid [5]), (1, .nonfungible sampleRid [1] [2] [3])]).events =
      [1, 2, 3] := by
  have h := (outbound_nonce_sequence st2 1
    [(1, .fungible sampleRid [2] 100), (2, .generic sampleRid []),
     (1, .generic sampleRid [5]), (1, .nonfungible sampleRid [1] [2] [3])]
    (by decide) rfl).1
  rw [h]
  decide
